import Mathlib

/-
  Shallow embedding of the ClaudeCodeMonitor tauri backend
  (src/tauri-app/src-tauri/src/*.rs) and verification of the
  specification claims about it.

  Modelling conventions:
  - Rust f64 values are modelled as rationals; every arithmetic
    operation appearing in the verified claims is exact on the
    concrete inputs involved, so no rounding is modelled.
  - Rust u64/u32 are modelled as Nat with explicit saturation at
    2^64-1 and 2^32-1 where the code performs an "as" cast from f64.
  - HashMap values are modelled as association lists; the map
    contents (lookup function, key multiset) are what the claims
    are about, iteration order is not.
  - HTTP transport outcomes (reqwest) are modelled as an Except
    value handed to the embedded function; serde JSON decoding of
    a history log line is modelled as its outcome, an
    Option HistoryEntry.
  - Calls to the system clock (SystemTime::now, Local::now) are
    modelled by an explicit parameter.
-/

namespace CCMonitor

/- ===== numeric string parsing (Rust str::parse::<f64>) =====
   Models Rust f64 parsing of finite decimal literals with optional
   sign, fraction and exponent.  The special forms inf/infinity/NaN
   have no rational counterpart and are treated as unparsable; they
   do not occur in any claim. -/

def digitsVal (ds : List Char) : Nat :=
  ds.foldl (fun a c => a * 10 + (c.toNat - 48)) 0

def parseF64 (s : String) : Option ℚ :=
  let cs := s.toList
  let sgnRest : ℚ × List Char :=
    match cs with
    | '+' :: r => (1, r)
    | '-' :: r => (-1, r)
    | r => (1, r)
  let sgn := sgnRest.1
  let cs1 := sgnRest.2
  let ip := cs1.takeWhile Char.isDigit
  let r1 := cs1.dropWhile Char.isDigit
  let fpRest : List Char × List Char :=
    match r1 with
    | '.' :: r => (r.takeWhile Char.isDigit, r.dropWhile Char.isDigit)
    | r => ([], r)
  let fp := fpRest.1
  let r2 := fpRest.2
  if ip.isEmpty ∧ fp.isEmpty then none
  else
    let mant : ℚ := (digitsVal ip : ℚ) + (digitsVal fp : ℚ) / ((10 : ℚ) ^ fp.length)
    match r2 with
    | [] => some (sgn * mant)
    | e :: r3 =>
      if e = 'e' ∨ e = 'E' then
        let esgnRest : Bool × List Char :=
          match r3 with
          | '+' :: r => (true, r)
          | '-' :: r => (false, r)
          | r => (true, r)
        let ed := esgnRest.2.takeWhile Char.isDigit
        let r5 := esgnRest.2.dropWhile Char.isDigit
        if ed.isEmpty ∨ ¬ r5.isEmpty then none
        else
          let ex : ℚ := (10 : ℚ) ^ digitsVal ed
          some (sgn * mant * (if esgnRest.1 then ex else 1 / ex))
      else none

/- Rust float-to-integer "as" casts: truncate toward zero and
   saturate at the bounds of the target type. -/

def ratTrunc (x : ℚ) : ℤ := if 0 ≤ x then x.floor else -((-x).floor)

def f64ToU64 (x : ℚ) : ℕ := min (ratTrunc x).toNat (2 ^ 64 - 1)

def f64ToU32 (x : ℚ) : ℕ := min (ratTrunc x).toNat (2 ^ 32 - 1)

def f64ToI64 (x : ℚ) : ℤ := max (-(2 ^ 63)) (min (ratTrunc x) (2 ^ 63 - 1))

/- ===== prometheus.rs : data model and client ===== -/

inductive PrometheusError where
  | request (msg : String)
  | invalidResponse (status : String)
deriving DecidableEq, Repr

/- thiserror Display implementation (error attribute strings). -/
def PrometheusError.display : PrometheusError → String
  | .request m => "HTTP request failed: " ++ m
  | .invalidResponse s => "Invalid response: " ++ s

structure QueryResult where
  metric : List (String × String)
  value : Option (ℚ × String)
  values : Option (List (ℚ × String))
deriving DecidableEq, Repr

/- HashMap::get on the metric label set. -/
def metricGet (m : List (String × String)) (k : String) : Option String :=
  (m.find? (fun p => p.1 = k)).map (fun p => p.2)

structure QueryData where
  resultType : String
  result : List QueryResult
deriving DecidableEq, Repr

structure QueryResponse where
  status : String
  data : QueryData
deriving DecidableEq, Repr

/- PrometheusClient::query, modelled on the decoded transport
   outcome: a transport or JSON-decode failure surfaces as the
   Request variant, then the envelope status is checked. -/
def clientQuery (resp : Except String QueryResponse) :
    Except PrometheusError (List QueryResult) :=
  match resp with
  | .error e => .error (.request e)
  | .ok r =>
    if r.status ≠ "success" then .error (.invalidResponse r.status)
    else .ok r.data.result

/- PrometheusClient::query_range: identical envelope handling. -/
def clientQueryRange (resp : Except String QueryResponse) :
    Except PrometheusError (List QueryResult) :=
  match resp with
  | .error e => .error (.request e)
  | .ok r =>
    if r.status ≠ "success" then .error (.invalidResponse r.status)
    else .ok r.data.result

/- Environment seen by the aggregators: the outcome of each client
   call, indexed by the query expression (and range parameters). -/
structure PromEnv where
  query : String → Except PrometheusError (List QueryResult)
  queryRange : String → ℤ → ℤ → String → Except PrometheusError (List QueryResult)
  testConn : Except PrometheusError Bool

/- ===== commands.rs : time range resolution ===== -/

/- commands.rs lines 6-17. -/
def time_range_to_seconds (range : String) : ℤ :=
  if range = "15m" then 15 * 60
  else if range = "1h" then 3600
  else if range = "4h" then 4 * 3600
  else if range = "1d" then 24 * 3600
  else if range = "7d" then 7 * 24 * 3600
  else if range = "30d" then 30 * 24 * 3600
  else if range = "90d" then 90 * 24 * 3600
  else 15 * 60

/- commands.rs lines 19-30. -/
def time_range_to_promql (range : String) : String :=
  if range = "15m" then "15m"
  else if range = "1h" then "1h"
  else if range = "4h" then "4h"
  else if range = "1d" then "1d"
  else if range = "7d" then "7d"
  else if range = "30d" then "30d"
  else if range = "90d" then "90d"
  else "15m"

/- The duration table of get_prometheus_health, commands.rs
   lines 355-364; the argument is the optional time_range command
   parameter. -/
def health_time_range_to_seconds (range : Option String) : ℤ :=
  if range = some "15m" then 15 * 60
  else if range = some "1h" then 3600
  else if range = some "4h" then 4 * 3600
  else if range = some "1d" then 24 * 3600
  else if range = some "7d" then 7 * 24 * 3600
  else if range = some "30d" then 30 * 24 * 3600
  else if range = some "90d" then 90 * 24 * 3600
  else 3600

/- The token-to-duration tables of the three resolvers, as
   (token, duration) pair lists read off the match arms, used to
   speak about the shortest supported duration of each table. -/
def dashboardRangeTable : List (String × ℤ) :=
  [("15m", 15 * 60), ("1h", 3600), ("4h", 4 * 3600), ("1d", 24 * 3600),
   ("7d", 7 * 24 * 3600), ("30d", 30 * 24 * 3600), ("90d", 90 * 24 * 3600)]

def healthRangeTable : List (String × ℤ) :=
  [("15m", 15 * 60), ("1h", 3600), ("4h", 4 * 3600), ("1d", 24 * 3600),
   ("7d", 7 * 24 * 3600), ("30d", 30 * 24 * 3600), ("90d", 90 * 24 * 3600)]

/- ===== sessions.rs : time range resolution ===== -/

/- sessions.rs lines 77-88. -/
def time_range_to_millis (range : String) : ℤ :=
  let hours : ℤ :=
    if range = "1h" then 1
    else if range = "8h" then 8
    else if range = "24h" then 24
    else if range = "2d" then 48
    else if range = "7d" then 168
    else if range = "30d" then 720
    else 24
  hours * 60 * 60 * 1000

def sessionsRangeTable : List (String × ℤ) :=
  [("1h", 3600000), ("8h", 8 * 3600000), ("24h", 24 * 3600000),
   ("2d", 48 * 3600000), ("7d", 168 * 3600000), ("30d", 720 * 3600000)]

/- sessions.rs lines 90-100. -/
def sessions_time_range_to_promql (range : String) : String :=
  if range = "1h" then "1h"
  else if range = "8h" then "8h"
  else if range = "24h" then "24h"
  else if range = "2d" then "2d"
  else if range = "7d" then "7d"
  else if range = "30d" then "30d"
  else "24h"

end CCMonitor

/- ===== insights.rs : calendar model =====
   chrono NaiveDate is internally a day count in the proleptic
   Gregorian calendar; we model a date as the signed number of days
   since 1970-01-01 and provide the civil-calendar conversions the
   code uses (year/month/day extraction, first-of-month
   construction, weekday). -/

namespace CCMonitor

/- Days since 1970-01-01 of the civil date y-m-d
   (standard civil-from-days algorithm, floor division). -/
def daysFromCivil (y m d : ℤ) : ℤ :=
  let y1 := if m ≤ 2 then y - 1 else y
  let era := Int.fdiv y1 400
  let yoe := y1 - era * 400
  let mp := Int.emod (m + 9) 12
  let doy := Int.fdiv (153 * mp + 2) 5 + d - 1
  let doe := yoe * 365 + Int.fdiv yoe 4 - Int.fdiv yoe 100 + doy
  era * 146097 + doe - 719468

/- Civil date (year, month, day) of a day number. -/
def civilFromDays (z : ℤ) : ℤ × ℤ × ℤ :=
  let z1 := z + 719468
  let era := Int.fdiv z1 146097
  let doe := z1 - era * 146097
  let yoe := Int.fdiv (doe - Int.fdiv doe 1460 + Int.fdiv doe 36524 - Int.fdiv doe 146096) 365
  let y := yoe + era * 400
  let doy := doe - (365 * yoe + Int.fdiv yoe 4 - Int.fdiv yoe 100)
  let mp := Int.fdiv (5 * doy + 2) 153
  let d := doy - Int.fdiv (153 * mp + 2) 5 + 1
  let m := mp + (if mp < 10 then 3 else -9)
  (if m ≤ 2 then y + 1 else y, m, d)

/- chrono Weekday::num_days_from_monday of a day number
   (1970-01-01 was a Thursday). -/
def numDaysFromMonday (z : ℤ) : ℤ := Int.emod (z + 3) 7

/- insights.rs lines 127-153; Local::now().date_naive() is the
   explicit today parameter.  Returns
   (current start, current end, previous start, previous end). -/
def get_period_dates (today : ℤ) (period : String) : ℤ × ℤ × ℤ × ℤ :=
  if period = "this_week" then
    let week_start := today - numDaysFromMonday today
    let prev_week_start := week_start - 7
    let prev_week_end := week_start - 1
    (week_start, today, prev_week_start, prev_week_end)
  else if period = "this_month" then
    let ymd := civilFromDays today
    let month_start := daysFromCivil ymd.1 ymd.2.1 1
    let prev_month_end := month_start - 1
    let pymd := civilFromDays prev_month_end
    let prev_month_start := daysFromCivil pymd.1 pymd.2.1 1
    (month_start, today, prev_month_start, prev_month_end)
  else
    let start := today - 6
    let prev_end := start - 1
    let prev_start := prev_end - 6
    (start, today, prev_start, prev_end)

/- ===== insights.rs : comparisons, cost, streak ===== -/

structure MetricComparison where
  current : ℚ
  previous : ℚ
  percent_change : Option ℚ
deriving DecidableEq, Repr

/- insights.rs lines 99-114. -/
def MetricComparison.new (current previous : ℚ) : MetricComparison :=
  let percent_change :=
    if previous > 0 then some (((current - previous) / previous) * 100)
    else if current > 0 then some 100
    else none
  { current := current, previous := previous, percent_change := percent_change }

/- insights.rs lines 192-200. -/
def calculate_cost (tokens : ℕ) (pricing_provider : String) : ℚ :=
  let rate_per_million : ℚ :=
    if pricing_provider = "google-vertex" then 16.5 else 15.0
  ((tokens : ℚ) / 1000000) * rate_per_million

/- The streak loop of compute_insights, insights.rs lines 286-295:
   dates is the descending-sorted list of activity day numbers with
   message_count > 0, expected starts at yesterday, streak at 0. -/
def streakLoop (today : ℤ) : List ℤ → ℤ → ℕ → ℕ
  | [], _, streak => streak
  | d :: rest, expected, streak =>
    if d = expected ∨ d = today then streakLoop today rest (d - 1) (streak + 1)
    else if d < expected then streak
    else streakLoop today rest expected streak

def computeStreak (today : ℤ) (dates : List ℤ) : ℕ :=
  streakLoop today dates (today - 1) 0

/- ===== sessions.rs : history log folding and enrichment ===== -/

/- One line of ~/.claude/history.jsonl, after serde decoding. -/
structure HistoryEntry where
  timestamp : ℤ
  project : String
  session_id : String
deriving DecidableEq, Repr

structure ModelTokenCount where
  model : String
  tokens : ℕ
deriving DecidableEq, Repr

structure SessionMetrics where
  session_id : String
  project : Option String
  project_path : Option String
  timestamp : ℤ
  message_count : ℕ
  total_cost_usd : ℚ
  total_tokens : ℕ
  input_tokens : ℕ
  output_tokens : ℕ
  cache_read_tokens : ℕ
  cache_creation_tokens : ℕ
  active_time_seconds : ℚ
  tokens_by_model : List ModelTokenCount
deriving DecidableEq, Repr

/- The session map, HashMap<String, SessionMetrics>, as an
   association list with first-seen insertion order. -/
def SessionMap := List (String × SessionMetrics)

/- sessions.rs lines 67-74: Path::file_name of the project path
   (last non-empty, non-dot component; none when it is a dot-dot or
   the path has no components), unwrap_or the whole path. -/
def extract_project_name (path : String) : String :=
  let comps := (path.splitOn "/").filter (fun c => c ≠ "" ∧ c ≠ ".")
  match comps.reverse.head? with
  | some c => if c = ".." then path else c
  | none => path

def initialSession (e : HistoryEntry) : SessionMetrics :=
  { session_id := e.session_id
    project := some (extract_project_name e.project)
    project_path := some e.project
    timestamp := e.timestamp
    message_count := 1
    total_cost_usd := 0
    total_tokens := 0
    input_tokens := 0
    output_tokens := 0
    cache_read_tokens := 0
    cache_creation_tokens := 0
    active_time_seconds := 0
    tokens_by_model := [] }

/- HashMap::entry(id).and_modify(bump).or_insert(initial). -/
def insertEntry (acc : List (String × SessionMetrics)) (e : HistoryEntry) :
    List (String × SessionMetrics) :=
  if (acc.find? (fun p => p.1 = e.session_id)).isSome then
    acc.map (fun p =>
      if p.1 = e.session_id then
        (p.1, { p.2 with
                message_count := p.2.message_count + 1
                timestamp := if e.timestamp > p.2.timestamp then e.timestamp else p.2.timestamp })
      else p)
  else acc ++ [(e.session_id, initialSession e)]

/- The line loop of load_history_sessions, sessions.rs lines
   116-156.  Each list element is the serde decoding outcome of one
   log line: none for an empty or malformed line (skipped), some
   entry for a well-formed one. -/
def foldHistory (cutoff : ℤ) :
    List (Option HistoryEntry) → List (String × SessionMetrics) →
    List (String × SessionMetrics)
  | [], acc => acc
  | none :: rest, acc => foldHistory cutoff rest acc
  | some e :: rest, acc =>
    if e.timestamp < cutoff then foldHistory cutoff rest acc
    else foldHistory cutoff rest (insertEntry acc e)

/- load_history_sessions, sessions.rs lines 102-159, with the
   clock and the decoded log lines explicit. -/
def load_history_sessions (now : ℤ) (time_range : String)
    (lines : List (Option HistoryEntry)) : List (String × SessionMetrics) :=
  let cutoff := now - time_range_to_millis time_range
  foldHistory cutoff lines []

/- HashMap::get_mut(sid) followed by a field update: every entry
   whose key is sid (at most one, keys being unique) is rewritten,
   absent keys leave the map unchanged. -/
def updateSession (m : List (String × SessionMetrics)) (sid : String)
    (f : SessionMetrics → SessionMetrics) : List (String × SessionMetrics) :=
  m.map (fun p => if p.1 = sid then (p.1, f p.2) else p)

/- enrich_with_prometheus pass 1, sessions.rs lines 169-186. -/
def costPass (results : List QueryResult)
    (m : List (String × SessionMetrics)) : List (String × SessionMetrics) :=
  results.foldl (fun acc r =>
    match metricGet r.metric "session_id" with
    | some sid =>
      updateSession acc sid (fun s =>
        { s with total_cost_usd := ((r.value.bind (fun p => parseF64 p.2)).getD 0) })
    | none => acc) m

/- pass 2, sessions.rs lines 188-205. -/
def tokensPass (results : List QueryResult)
    (m : List (String × SessionMetrics)) : List (String × SessionMetrics) :=
  results.foldl (fun acc r =>
    match metricGet r.metric "session_id" with
    | some sid =>
      updateSession acc sid (fun s =>
        { s with total_tokens := f64ToU64 ((r.value.bind (fun p => parseF64 p.2)).getD 0) })
    | none => acc) m

/- pass 3, sessions.rs lines 207-234. -/
def typePass (results : List QueryResult)
    (m : List (String × SessionMetrics)) : List (String × SessionMetrics) :=
  results.foldl (fun acc r =>
    match metricGet r.metric "session_id", metricGet r.metric "type" with
    | some sid, some token_type =>
      updateSession acc sid (fun s =>
        let tokens := f64ToU64 ((r.value.bind (fun p => parseF64 p.2)).getD 0)
        if token_type = "input" then { s with input_tokens := tokens }
        else if token_type = "output" then { s with output_tokens := tokens }
        else if token_type = "cache_read" then { s with cache_read_tokens := tokens }
        else if token_type = "cache_creation" then { s with cache_creation_tokens := tokens }
        else s)
    | _, _ => acc) m

/- pass 4, sessions.rs lines 236-253. -/
def timePass (results : List QueryResult)
    (m : List (String × SessionMetrics)) : List (String × SessionMetrics) :=
  results.foldl (fun acc r =>
    match metricGet r.metric "session_id" with
    | some sid =>
      updateSession acc sid (fun s =>
        { s with active_time_seconds := ((r.value.bind (fun p => parseF64 p.2)).getD 0) })
    | none => acc) m

/- The if-let Ok guard around one enrichment pass: the pass runs
   only when its query succeeds, a failed query leaves the map
   untouched. -/
def passIf (x : Except PrometheusError (List QueryResult))
    (pass : List QueryResult → List (String × SessionMetrics) →
      List (String × SessionMetrics))
    (m : List (String × SessionMetrics)) : List (String × SessionMetrics) :=
  match x with
  | .ok rs => pass rs m
  | .error _ => m

/- enrich_with_prometheus, sessions.rs lines 161-256: the four
   passes in issue order; the Ok(()) result carries no data, so the
   function is the map transformation itself. -/
def enrich_with_prometheus (env : PromEnv) (time_range : String)
    (m : List (String × SessionMetrics)) : List (String × SessionMetrics) :=
  let range := sessions_time_range_to_promql time_range
  passIf (env.query ("sum by (session_id) (increase(claude_code_active_time_seconds_total[" ++ range ++ "]))")) timePass
    (passIf (env.query ("sum by (session_id, type) (increase(claude_code_token_usage_tokens_total[" ++ range ++ "]))")) typePass
      (passIf (env.query ("sum by (session_id) (increase(claude_code_token_usage_tokens_total[" ++ range ++ "]))")) tokensPass
        (passIf (env.query ("sum by (session_id) (increase(claude_code_cost_usage_USD_total[" ++ range ++ "]))")) costPass m)))

/- ===== metrics.rs : dashboard response shapes ===== -/

structure ModelTokens where
  model : String
  tokens : ℕ
deriving DecidableEq, Repr

structure TimeSeriesPoint where
  timestamp : ℤ
  value : ℚ
deriving DecidableEq, Repr

structure DashboardMetrics where
  total_tokens : ℕ
  total_cost_usd : ℚ
  active_time_seconds : ℚ
  session_count : ℕ
  lines_added : ℕ
  lines_removed : ℕ
  commit_count : ℕ
  pull_request_count : ℕ
  tokens_by_model : List ModelTokens
  tokens_over_time : List TimeSeriesPoint
  input_tokens : ℕ
  output_tokens : ℕ
  cache_read_tokens : ℕ
  cache_creation_tokens : ℕ
deriving DecidableEq, Repr

/- ===== commands.rs : dashboard aggregator ===== -/

/- The query strings built by get_dashboard_metrics, in the order
   they are issued (commands.rs lines 61-244). -/
def tokensQuery (range : String) : String :=
  "sum(increase(claude_code_token_usage_tokens_total[" ++ range ++ "]))"

def inputQuery (range : String) : String :=
  "sum(increase(claude_code_token_usage_tokens_total\x7btype=\"input\"\x7d[" ++ range ++ "]))"

def outputQuery (range : String) : String :=
  "sum(increase(claude_code_token_usage_tokens_total\x7btype=\"output\"\x7d[" ++ range ++ "]))"

def cacheReadQuery (range : String) : String :=
  "sum(increase(claude_code_token_usage_tokens_total\x7btype=~\"cache_read|cacheRead\"\x7d[" ++ range ++ "]))"

def cacheCreationQuery (range : String) : String :=
  "sum(increase(claude_code_token_usage_tokens_total\x7btype=~\"cache_creation|cacheCreation\"\x7d[" ++ range ++ "]))"

def costQuery (range : String) : String :=
  "sum(increase(claude_code_cost_usage_USD_total[" ++ range ++ "]))"

def activeTimeQuery (range : String) : String :=
  "sum(increase(claude_code_active_time_seconds_total[" ++ range ++ "]))"

def sessionQuery (range : String) : String :=
  "sum(increase(claude_code_session_count_total[" ++ range ++ "]))"

def linesAddedQuery (range : String) : String :=
  "sum(increase(claude_code_lines_of_code_count_total\x7btype=\"added\"\x7d[" ++ range ++ "]))"

def linesRemovedQuery (range : String) : String :=
  "sum(increase(claude_code_lines_of_code_count_total\x7btype=\"removed\"\x7d[" ++ range ++ "]))"

def commitQuery (range : String) : String :=
  "sum(increase(claude_code_commit_count_total[" ++ range ++ "]))"

def prQuery (range : String) : String :=
  "sum(increase(claude_code_pull_request_count_total[" ++ range ++ "]))"

def modelQuery (range : String) : String :=
  "sum by (model) (increase(claude_code_token_usage_tokens_total[" ++ range ++ "]))"

def rateRangeQuery (rate_window : String) : String :=
  "sum(rate(claude_code_cost_usage_USD_total[" ++ rate_window ++ "]))"

/- The time-range branch of get_dashboard_metrics, commands.rs
   lines 42-57, with the clock explicit. -/
def resolveDashboardRange (now : ℤ) (time_range : String)
    (custom_start custom_end : Option ℤ) : Except String (ℤ × ℤ × String) :=
  if time_range = "custom" then
    match custom_start with
    | none => .error "Custom start time required"
    | some s =>
      match custom_end with
      | none => .error "Custom end time required"
      | some e => .ok (s, e, toString (e - s) ++ "s")
  else
    .ok (now - time_range_to_seconds time_range, now,
         time_range_to_promql time_range)

/- The step and rate-window staircase, commands.rs lines 253-279. -/
def stepRateWindow (time_range : String) (start_time end_time : ℤ) :
    String × String :=
  if time_range = "15m" then ("1m", "5m")
  else if time_range = "1h" then ("1m", "5m")
  else if time_range = "4h" then ("5m", "5m")
  else if time_range = "1d" then ("1h", "1h")
  else if time_range = "7d" then ("6h", "6h")
  else if time_range = "30d" then ("1d", "1d")
  else if time_range = "90d" then ("3d", "3d")
  else if time_range = "custom" then
    let duration := end_time - start_time
    if duration ≤ 3600 then ("1m", "5m")
    else if duration ≤ 4 * 3600 then ("5m", "5m")
    else if duration ≤ 24 * 3600 then ("1h", "1h")
    else if duration ≤ 7 * 24 * 3600 then ("6h", "6h")
    else if duration ≤ 30 * 24 * 3600 then ("1d", "1d")
    else ("3d", "3d")
  else ("1m", "5m")

/- One instant scalar query of the dashboard aggregator: error is
   string-propagated, a missing row, missing value or unparsable
   value defaults to zero. -/
def queryScalar (env : PromEnv) (q : String) : Except String ℚ :=
  match env.query q with
  | .error e => .error e.display
  | .ok results =>
    .ok (((results.head?.bind (fun r => r.value)).bind
          (fun p => parseF64 p.2)).getD 0)

/- get_dashboard_metrics, commands.rs lines 32-320, with clock and
   client outcomes explicit. -/
def getDashboardMetrics (env : PromEnv) (now : ℤ) (time_range : String)
    (custom_start custom_end : Option ℤ) : Except String DashboardMetrics :=
  match resolveDashboardRange now time_range custom_start custom_end with
  | .error e => .error e
  | .ok (start_time, end_time, range) =>
  match queryScalar env (tokensQuery range) with
  | .error e => .error e
  | .ok total_tokens_raw =>
  match queryScalar env (inputQuery range) with
  | .error e => .error e
  | .ok input_raw =>
  match queryScalar env (outputQuery range) with
  | .error e => .error e
  | .ok output_raw =>
  match queryScalar env (cacheReadQuery range) with
  | .error e => .error e
  | .ok cache_read_raw =>
  match queryScalar env (cacheCreationQuery range) with
  | .error e => .error e
  | .ok cache_creation_raw =>
  match queryScalar env (costQuery range) with
  | .error e => .error e
  | .ok total_cost_usd =>
  match queryScalar env (activeTimeQuery range) with
  | .error e => .error e
  | .ok active_time_seconds =>
  match queryScalar env (sessionQuery range) with
  | .error e => .error e
  | .ok session_raw =>
  match queryScalar env (linesAddedQuery range) with
  | .error e => .error e
  | .ok lines_added_raw =>
  match queryScalar env (linesRemovedQuery range) with
  | .error e => .error e
  | .ok lines_removed_raw =>
  match queryScalar env (commitQuery range) with
  | .error e => .error e
  | .ok commit_raw =>
  match queryScalar env (prQuery range) with
  | .error e => .error e
  | .ok pr_raw =>
  match env.query (modelQuery range) with
  | .error e => .error e.display
  | .ok model_rows =>
  let tokens_by_model : List ModelTokens := model_rows.filterMap (fun r =>
    (metricGet r.metric "model").bind (fun model =>
      (r.value.bind (fun p => parseF64 p.2)).map (fun t =>
        { model := model, tokens := f64ToU64 t })))
  let sw := stepRateWindow time_range start_time end_time
  match env.queryRange (rateRangeQuery sw.2) start_time end_time sw.1 with
  | .error e => .error e.display
  | .ok range_rows =>
  let tokens_over_time : List TimeSeriesPoint :=
    ((range_rows.head?.bind (fun r => r.values)).map (fun vals =>
      vals.map (fun p =>
        { timestamp := f64ToI64 p.1, value := (parseF64 p.2).getD 0 }))).getD []
  .ok
    { total_tokens := f64ToU64 total_tokens_raw
      total_cost_usd := total_cost_usd
      active_time_seconds := active_time_seconds
      session_count := f64ToU32 session_raw
      lines_added := f64ToU64 lines_added_raw
      lines_removed := f64ToU64 lines_removed_raw
      commit_count := f64ToU32 commit_raw
      pull_request_count := f64ToU32 pr_raw
      tokens_by_model := tokens_by_model
      tokens_over_time := tokens_over_time
      input_tokens := f64ToU64 input_raw
      output_tokens := f64ToU64 output_raw
      cache_read_tokens := f64ToU64 cache_read_raw
      cache_creation_tokens := f64ToU64 cache_creation_raw }

/- The client calls issued by get_dashboard_metrics after range
   resolution, in order, with their payloads discarded. -/
def dashboardInstantQueries (range : String) : List String :=
  [tokensQuery range, inputQuery range, outputQuery range,
   cacheReadQuery range, cacheCreationQuery range, costQuery range,
   activeTimeQuery range, sessionQuery range, linesAddedQuery range,
   linesRemovedQuery range, commitQuery range, prQuery range,
   modelQuery range]

def dashboardCallResults (env : PromEnv) (range step rate_window : String)
    (start_time end_time : ℤ) : List (Except PrometheusError Unit) :=
  (dashboardInstantQueries range).map (fun q => (env.query q).map (fun _ => ())) ++
    [(env.queryRange (rateRangeQuery rate_window) start_time end_time step).map
      (fun _ => ())]

def firstError (rs : List (Except PrometheusError Unit)) :
    Option PrometheusError :=
  rs.findSome? (fun r => match r with | .error e => some e | .ok _ => none)

/- ===== prometheus_health.rs : health aggregator ===== -/

/- prometheus_health.rs has its own TimeSeriesPoint with an f64
   timestamp. -/
structure HealthPoint where
  timestamp : ℚ
  value : ℚ
deriving DecidableEq, Repr

structure PrometheusHealthMetrics where
  is_ready : Bool
  uptime_seconds : ℚ
  version : String
  go_version : String
  storage_blocks_bytes : ℚ
  storage_wal_bytes : ℚ
  storage_total_bytes : ℚ
  storage_retention_limit_bytes : ℚ
  storage_retention_limit_seconds : ℚ
  head_series : ℚ
  oldest_timestamp_seconds : ℚ
  newest_timestamp_seconds : ℚ
  blocks_loaded : ℚ
  process_memory_bytes : ℚ
  heap_inuse_bytes : ℚ
  heap_alloc_bytes : ℚ
  goroutines : ℚ
  cpu_seconds_rate : ℚ
  samples_appended_rate : ℚ
  series_created_rate : ℚ
  target_count : ℚ
  scrape_duration_seconds : ℚ
  scrape_samples : ℚ
  compactions_failed : ℚ
  compactions_total : ℚ
  wal_corruptions : ℚ
  config_reload_success : Bool
  config_reload_timestamp : ℚ
  storage_over_time : List HealthPoint
  memory_over_time : List HealthPoint
  samples_rate_over_time : List HealthPoint

/- impl Default, prometheus_health.rs lines 62-98. -/
def PrometheusHealthMetrics.default : PrometheusHealthMetrics :=
  { is_ready := false
    uptime_seconds := 0
    version := ""
    go_version := ""
    storage_blocks_bytes := 0
    storage_wal_bytes := 0
    storage_total_bytes := 0
    storage_retention_limit_bytes := 0
    storage_retention_limit_seconds := 0
    head_series := 0
    oldest_timestamp_seconds := 0
    newest_timestamp_seconds := 0
    blocks_loaded := 0
    process_memory_bytes := 0
    heap_inuse_bytes := 0
    heap_alloc_bytes := 0
    goroutines := 0
    cpu_seconds_rate := 0
    samples_appended_rate := 0
    series_created_rate := 0
    target_count := 0
    scrape_duration_seconds := 0
    scrape_samples := 0
    compactions_failed := 0
    compactions_total := 0
    wal_corruptions := 0
    config_reload_success := false
    config_reload_timestamp := 0
    storage_over_time := []
    memory_over_time := []
    samples_rate_over_time := [] }

/- The repeated if-let chain of fetch_prometheus_health for one
   scalar field: the field keeps its previous value (always the
   0 default) when the query fails, returns no row or no sample;
   an unparsable sample parses to unwrap_or zero. -/
def scalarOrDefault (env : PromEnv) (q : String) (dflt : ℚ) : ℚ :=
  match env.query q with
  | .error _ => dflt
  | .ok results =>
    match results.head? with
    | none => dflt
    | some r =>
      match r.value with
      | none => dflt
      | some pv => (parseF64 pv.2).getD 0

/- The repeated if-let chain for one sparkline series. -/
def rangeSeriesOrDefault (env : PromEnv) (q : String)
    (start_time end_time : ℤ) (step : String) (dflt : List HealthPoint) :
    List HealthPoint :=
  match env.queryRange q start_time end_time step with
  | .error _ => dflt
  | .ok results =>
    match results.head? with
    | none => dflt
    | some r =>
      match r.values with
      | none => dflt
      | some vals =>
        vals.map (fun p => { timestamp := p.1, value := (parseF64 p.2).getD 0 })

/- The sparkline step staircase, prometheus_health.rs
   lines 341-352. -/
def healthStep (duration : ℤ) : String :=
  if duration ≤ 900 then "15s"
  else if duration ≤ 3600 then "60s"
  else if duration ≤ 4 * 3600 then "300s"
  else if duration ≤ 24 * 3600 then "900s"
  else "3600s"

/- fetch_prometheus_health, prometheus_health.rs lines 100-419.
   The source binds each value to a mutable field before the final
   Ok(metrics); all the computations are pure, so the record is
   built directly, repeating the two storage scalars in the
   storage_total_bytes sum and the step in the three sparkline
   calls exactly as the bound values would be. -/
def fetch_prometheus_health (env : PromEnv) (start_time end_time : ℤ) :
    Except String PrometheusHealthMetrics :=
  .ok
    { is_ready := match env.testConn with | .ok b => b | .error _ => false
      uptime_seconds :=
        scalarOrDefault env "time() - process_start_time_seconds" 0
      version :=
        match env.query "prometheus_build_info" with
        | .ok results =>
          match results.head? with
          | some r => (metricGet r.metric "version").getD ""
          | none => ""
        | .error _ => ""
      go_version :=
        match env.query "prometheus_build_info" with
        | .ok results =>
          match results.head? with
          | some r => (metricGet r.metric "goversion").getD ""
          | none => ""
        | .error _ => ""
      storage_blocks_bytes :=
        scalarOrDefault env "prometheus_tsdb_storage_blocks_bytes" 0
      storage_wal_bytes :=
        scalarOrDefault env "prometheus_tsdb_wal_storage_size_bytes" 0
      storage_total_bytes :=
        scalarOrDefault env "prometheus_tsdb_storage_blocks_bytes" 0 +
          scalarOrDefault env "prometheus_tsdb_wal_storage_size_bytes" 0
      storage_retention_limit_bytes :=
        scalarOrDefault env "prometheus_tsdb_retention_limit_bytes" 0
      storage_retention_limit_seconds :=
        scalarOrDefault env "prometheus_tsdb_retention_limit_seconds" 0
      head_series := scalarOrDefault env "prometheus_tsdb_head_series" 0
      oldest_timestamp_seconds :=
        scalarOrDefault env "prometheus_tsdb_lowest_timestamp_seconds" 0
      newest_timestamp_seconds :=
        scalarOrDefault env "prometheus_tsdb_head_max_time_seconds" 0
      blocks_loaded := scalarOrDefault env "prometheus_tsdb_blocks_loaded" 0
      process_memory_bytes :=
        scalarOrDefault env "process_resident_memory_bytes" 0
      heap_inuse_bytes :=
        scalarOrDefault env "go_memstats_heap_inuse_bytes" 0
      heap_alloc_bytes :=
        scalarOrDefault env "go_memstats_heap_alloc_bytes" 0
      goroutines := scalarOrDefault env "go_goroutines" 0
      cpu_seconds_rate :=
        scalarOrDefault env "rate(process_cpu_seconds_total[1m])" 0
      samples_appended_rate :=
        scalarOrDefault env "rate(prometheus_tsdb_head_samples_appended_total[1m])" 0
      series_created_rate :=
        scalarOrDefault env "rate(prometheus_tsdb_head_series_created_total[1m])" 0
      target_count := scalarOrDefault env "count(up)" 0
      scrape_duration_seconds :=
        scalarOrDefault env "scrape_duration_seconds" 0
      scrape_samples := scalarOrDefault env "scrape_samples_scraped" 0
      compactions_failed :=
        scalarOrDefault env "prometheus_tsdb_compactions_failed_total" 0
      compactions_total :=
        scalarOrDefault env "prometheus_tsdb_compactions_total" 0
      wal_corruptions :=
        scalarOrDefault env "prometheus_tsdb_wal_corruptions_total" 0
      config_reload_success :=
        match env.query "prometheus_config_last_reload_successful" with
        | .ok results =>
          match results.head? with
          | some r =>
            match r.value with
            | some pv => decide ((parseF64 pv.2).getD 0 = 1)
            | none => false
          | none => false
        | .error _ => false
      config_reload_timestamp :=
        scalarOrDefault env "prometheus_config_last_reload_success_timestamp_seconds" 0
      storage_over_time :=
        rangeSeriesOrDefault env
          "prometheus_tsdb_storage_blocks_bytes + prometheus_tsdb_wal_storage_size_bytes"
          start_time end_time (healthStep (end_time - start_time)) []
      memory_over_time :=
        rangeSeriesOrDefault env "process_resident_memory_bytes"
          start_time end_time (healthStep (end_time - start_time)) []
      samples_rate_over_time :=
        rangeSeriesOrDefault env
          "rate(prometheus_tsdb_head_samples_appended_total[1m])"
          start_time end_time (healthStep (end_time - start_time)) [] }

/- The failure conditions under which one scalar field keeps its
   zero default: query failure, empty row list, missing sample, or
   unparsable sample. -/
def scalarMissing (env : PromEnv) (q : String) : Prop :=
  match env.query q with
  | .error _ => True
  | .ok results =>
    match results.head? with
    | none => True
    | some r =>
      match r.value with
      | none => True
      | some pv => parseF64 pv.2 = none

def rangeSeriesMissing (env : PromEnv) (q : String)
    (start_time end_time : ℤ) (step : String) : Prop :=
  match env.queryRange q start_time end_time step with
  | .error _ => True
  | .ok results =>
    match results.head? with
    | none => True
    | some r => r.values = none

/- ===== frame relations for the enrichment passes ===== -/

/- t agrees with s on the six fields the enrichment never writes:
   session_id, project, project_path, timestamp, message_count and
   tokens_by_model. -/
def enrichFrame (s t : SessionMetrics) : Prop :=
  t.session_id = s.session_id ∧
  t.project = s.project ∧
  t.project_path = s.project_path ∧
  t.timestamp = s.timestamp ∧
  t.message_count = s.message_count ∧
  t.tokens_by_model = s.tokens_by_model

/- t agrees with s on every field except possibly the named
   write set of one pass (the first six conjuncts are the
   enrichFrame fields). -/
def onlyCostChanged (s t : SessionMetrics) : Prop :=
  t.session_id = s.session_id ∧
  t.project = s.project ∧
  t.project_path = s.project_path ∧
  t.timestamp = s.timestamp ∧
  t.message_count = s.message_count ∧
  t.tokens_by_model = s.tokens_by_model ∧
  t.total_tokens = s.total_tokens ∧
  t.input_tokens = s.input_tokens ∧
  t.output_tokens = s.output_tokens ∧
  t.cache_read_tokens = s.cache_read_tokens ∧
  t.cache_creation_tokens = s.cache_creation_tokens ∧
  t.active_time_seconds = s.active_time_seconds

def onlyTokensChanged (s t : SessionMetrics) : Prop :=
  t.session_id = s.session_id ∧
  t.project = s.project ∧
  t.project_path = s.project_path ∧
  t.timestamp = s.timestamp ∧
  t.message_count = s.message_count ∧
  t.tokens_by_model = s.tokens_by_model ∧
  t.total_cost_usd = s.total_cost_usd ∧
  t.input_tokens = s.input_tokens ∧
  t.output_tokens = s.output_tokens ∧
  t.cache_read_tokens = s.cache_read_tokens ∧
  t.cache_creation_tokens = s.cache_creation_tokens ∧
  t.active_time_seconds = s.active_time_seconds

def onlyTypeChanged (s t : SessionMetrics) : Prop :=
  t.session_id = s.session_id ∧
  t.project = s.project ∧
  t.project_path = s.project_path ∧
  t.timestamp = s.timestamp ∧
  t.message_count = s.message_count ∧
  t.tokens_by_model = s.tokens_by_model ∧
  t.total_cost_usd = s.total_cost_usd ∧
  t.total_tokens = s.total_tokens ∧
  t.active_time_seconds = s.active_time_seconds

def onlyTimeChanged (s t : SessionMetrics) : Prop :=
  t.session_id = s.session_id ∧
  t.project = s.project ∧
  t.project_path = s.project_path ∧
  t.timestamp = s.timestamp ∧
  t.message_count = s.message_count ∧
  t.tokens_by_model = s.tokens_by_model ∧
  t.total_cost_usd = s.total_cost_usd ∧
  t.total_tokens = s.total_tokens ∧
  t.input_tokens = s.input_tokens ∧
  t.output_tokens = s.output_tokens ∧
  t.cache_read_tokens = s.cache_read_tokens ∧
  t.cache_creation_tokens = s.cache_creation_tokens

/- Lift a session relation to keyed map entries. -/
def liftRel (R : SessionMetrics → SessionMetrics → Prop)
    (p q : String × SessionMetrics) : Prop :=
  p.1 = q.1 ∧ R p.2 q.2

/- ===== concrete environments used by witnesses ===== -/

def allFailEnv : PromEnv :=
  { query := fun _ => .error (.request "connection refused")
    queryRange := fun _ _ _ _ => .error (.request "connection refused")
    testConn := .error (.request "connection refused") }

def oneFailEnv : PromEnv :=
  { query := fun q =>
      if q = outputQuery "15m" then .error (.invalidResponse "bad") else .ok []
    queryRange := fun _ _ _ _ => .ok []
    testConn := .ok true }

/- ===================================================== -/
/- ===================== theorems ====================== -/
/- ===================================================== -/

/-- C1, counterexample: the sessions time-range resolver does not
fall back to the shortest duration of its own lookup table on an
unknown token: its table minimum is one hour (3600000 ms) but the
fallback is 24 hours (86400000 ms). -/
theorem c1_fallback_counterexample :
    (sessionsRangeTable.map Prod.snd).min? = some 3600000 ∧
    time_range_to_millis "weekly" = 86400000 ∧
    (86400000 : ℤ) ≠ 3600000 := by
  refine ⟨by decide, by decide, by decide⟩

/-- C1 (amended): for every range token outside its supported set,
each resolver returns a fixed fallback duration and never an error:
the dashboard resolver returns 900 s, which is the minimum of its
table; the sessions resolver returns 86400000 ms although its table
minimum is 3600000 ms; the health resolver returns 3600 s (also for
an absent token) although its table minimum is 900 s. -/
theorem c1_unknown_token_fallback (r : String)
    (hd : r ∉ ["15m", "1h", "4h", "1d", "7d", "30d", "90d"])
    (hs : r ∉ ["1h", "8h", "24h", "2d", "7d", "30d"]) :
    time_range_to_seconds r = 900 ∧
    (dashboardRangeTable.map Prod.snd).min? = some 900 ∧
    time_range_to_millis r = 86400000 ∧
    (sessionsRangeTable.map Prod.snd).min? = some 3600000 ∧
    health_time_range_to_seconds (some r) = 3600 ∧
    health_time_range_to_seconds none = 3600 ∧
    (healthRangeTable.map Prod.snd).min? = some 900 := by
  simp only [List.mem_cons, List.not_mem_nil, or_false, not_or] at hd hs
  obtain ⟨d1, d2, d3, d4, d5, d6, d7⟩ := hd
  obtain ⟨s1, s2, s3, s4, s5, s6⟩ := hs
  refine ⟨?_, by decide, ?_, by decide, ?_, by decide, by decide⟩
  · simp [time_range_to_seconds, d1, d2, d3, d4, d5, d6, d7]
  · simp [time_range_to_millis, s1, s2, s3, s4, s5, s6]
  · simp [health_time_range_to_seconds, d1, d2, d3, d4, d5, d6, d7]

/-- Witness for C1 (amended), at the concrete unknown token
"weekly". -/
theorem c1_unknown_token_fallback_witness :
    time_range_to_seconds "weekly" = 900 ∧
    (dashboardRangeTable.map Prod.snd).min? = some 900 ∧
    time_range_to_millis "weekly" = 86400000 ∧
    (sessionsRangeTable.map Prod.snd).min? = some 3600000 ∧
    health_time_range_to_seconds (some "weekly") = 3600 ∧
    health_time_range_to_seconds none = 3600 ∧
    (healthRangeTable.map Prod.snd).min? = some 900 :=
  c1_unknown_token_fallback "weekly" (by decide) (by decide)

/-- C2, counterexample: on day 6 (1970-01-07, a Wednesday) the
this_week period resolves to a 3-day current window (Monday through
Wednesday) but a 7-day previous window, so the two windows do not
have the same number of days. -/
theorem c2_equal_length_counterexample :
    get_period_dates 6 "this_week" = (4, 6, -3, 3) ∧
    (6 : ℤ) - 4 + 1 = 3 ∧ (3 : ℤ) - (-3) + 1 = 7 ∧ (3 : ℤ) ≠ 7 := by
  refine ⟨by decide, by decide, by decide, by decide⟩

/-- C2 (amended): for every named period the previous window ends
on the day before the current window starts; the two windows have
equal length (seven days each) for the trailing-7-days default; for
this_week the current window is clipped at today, spanning
num_days_from_monday(today) + 1 days against an always seven-day
previous window, so the lengths differ in general (for this_month
the current window is likewise clipped at today against the
previous full calendar month). -/
theorem c2_period_windows (today : ℤ) (period : String) :
    (get_period_dates today period).2.2.2 = (get_period_dates today period).1 - 1 ∧
    (period ≠ "this_week" → period ≠ "this_month" →
      (get_period_dates today period).2.1 - (get_period_dates today period).1 = 6 ∧
      (get_period_dates today period).2.2.2 - (get_period_dates today period).2.2.1 = 6) ∧
    (period = "this_week" →
      (get_period_dates today period).2.1 - (get_period_dates today period).1 =
        numDaysFromMonday today ∧
      (get_period_dates today period).2.2.2 - (get_period_dates today period).2.2.1 = 6) := by
  by_cases hw : period = "this_week"
  · subst hw
    refine ⟨?_, ?_, ?_⟩
    · simp [get_period_dates]
    · intro h; exact absurd rfl h
    · intro _
      constructor
      · simp [get_period_dates]
      · simp [get_period_dates]
  · by_cases hm : period = "this_month"
    · subst hm
      refine ⟨?_, ?_, ?_⟩
      · simp [get_period_dates]
      · intro _ h; exact absurd rfl h
      · intro h; exact absurd h hw
    · refine ⟨?_, ?_, ?_⟩
      · simp [get_period_dates, hw, hm]
      · intro _ _
        constructor
        · simp [get_period_dates, hw, hm]
        · simp [get_period_dates, hw, hm]
      · intro h; exact absurd h hw

/-- Witness for C2 (amended), at day 6 (1970-01-07, a Wednesday)
with an unnamed period for the default branch and with this_week
for the clipped branch. -/
theorem c2_period_windows_witness :
    ((get_period_dates 6 "x").2.2.2 = (get_period_dates 6 "x").1 - 1 ∧
     (get_period_dates 6 "x").2.1 - (get_period_dates 6 "x").1 = 6 ∧
     (get_period_dates 6 "x").2.2.2 - (get_period_dates 6 "x").2.2.1 = 6) ∧
    ((get_period_dates 6 "this_week").2.2.2 =
       (get_period_dates 6 "this_week").1 - 1 ∧
     (get_period_dates 6 "this_week").2.1 - (get_period_dates 6 "this_week").1 =
       numDaysFromMonday 6 ∧
     (get_period_dates 6 "this_week").2.2.2 -
       (get_period_dates 6 "this_week").2.2.1 = 6) := by
  have h := c2_period_windows 6 "x"
  have hw := c2_period_windows 6 "this_week"
  exact ⟨⟨h.1, h.2.1 (by decide) (by decide)⟩,
    ⟨hw.1, (hw.2.2 rfl).1, (hw.2.2 rfl).2⟩⟩

/-- C3: on an envelope whose status is not the string "success",
both query and query_range fail with the invalid-response error
carrying that status and return no rows; on a "success" envelope
they return exactly the rows of the data.result array. -/
theorem c3_status_check (resp : Except String QueryResponse)
    (r : QueryResponse) (h : resp = .ok r) :
    (r.status ≠ "success" →
      clientQuery resp = .error (.invalidResponse r.status) ∧
      clientQueryRange resp = .error (.invalidResponse r.status)) ∧
    (r.status = "success" →
      clientQuery resp = .ok r.data.result ∧
      clientQueryRange resp = .ok r.data.result) := by
  subst h
  constructor
  · intro hs
    constructor <;> simp [clientQuery, clientQueryRange, hs]
  · intro hs
    constructor <;> simp [clientQuery, clientQueryRange, hs]

/-- Witness for C3, on a concrete non-success envelope. -/
theorem c3_status_check_witness :
    clientQuery (.ok ⟨"error", ⟨"vector", []⟩⟩) =
      .error (.invalidResponse "error") ∧
    clientQueryRange (.ok ⟨"error", ⟨"vector", []⟩⟩) =
      .error (.invalidResponse "error") :=
  (c3_status_check (.ok ⟨"error", ⟨"vector", []⟩⟩) ⟨"error", ⟨"vector", []⟩⟩
    rfl).1 (by decide)

/-- C6, counterexample: the claim as stated assigns the relative
change formula to every input outside the two previous-equals-zero
cases, but on current 5, previous -10 the formula gives -150 while
the code returns 100. -/
theorem c6_percent_change_counterexample :
    (MetricComparison.new 5 (-10)).percent_change = some 100 ∧
    ((5 : ℚ) - (-10)) / (-10) * 100 = -150 ∧
    some (100 : ℚ) ≠ some (-150 : ℚ) := by
  refine ⟨by norm_num [MetricComparison.new], by norm_num, by norm_num⟩

/-- C6 (amended): percent_change is the relative change formula
when previous is strictly positive, Some 100 when previous is not
positive and current is, and None when neither is positive; in
particular new(0,0) gives None, new(5,0) gives Some 100 and
new(50,100) gives Some -50. -/
theorem c6_percent_change (current previous : ℚ) :
    (0 < previous →
      (MetricComparison.new current previous).percent_change =
        some (((current - previous) / previous) * 100)) ∧
    (previous ≤ 0 → 0 < current →
      (MetricComparison.new current previous).percent_change = some 100) ∧
    (previous ≤ 0 → current ≤ 0 →
      (MetricComparison.new current previous).percent_change = none) ∧
    (MetricComparison.new 0 0).percent_change = none ∧
    (MetricComparison.new 5 0).percent_change = some 100 ∧
    (MetricComparison.new 50 100).percent_change = some (-50) := by
  refine ⟨?_, ?_, ?_, by norm_num [MetricComparison.new],
    by norm_num [MetricComparison.new], by norm_num [MetricComparison.new]⟩
  · intro h
    simp [MetricComparison.new, h]
  · intro h hc
    simp [MetricComparison.new, not_lt.mpr h, hc]
  · intro h hc
    simp [MetricComparison.new, not_lt.mpr h, not_lt.mpr hc]

/-- Witness for C6 (amended), at the concrete pair (50, 100). -/
theorem c6_percent_change_witness :
    (MetricComparison.new 50 100).percent_change =
      some (((50 - 100) / 100) * 100) :=
  (c6_percent_change 50 100).1 (by norm_num)

/-- C7: the streak computation anchored at today or yesterday:
with activity dates today, today-1, today-2 followed by dates
older than today-3 the streak is 3; when the most recent activity
date is today-2 the streak is 0. -/
theorem c7_streak (today : ℤ) (rest rest2 : List ℤ)
    (hrest : ∀ d ∈ rest, d < today - 3) :
    computeStreak today (today :: (today - 1) :: (today - 2) :: rest) = 3 ∧
    computeStreak today ((today - 2) :: rest2) = 0 := by
  constructor
  · rw [computeStreak, streakLoop, if_pos (Or.inr rfl),
      streakLoop, if_pos (Or.inl (by ring)),
      streakLoop, if_pos (Or.inl (by ring))]
    cases rest with
    | nil => rfl
    | cons d t =>
      have hd : d < today - 3 := hrest d (List.mem_cons_self d t)
      rw [streakLoop, if_neg (by omega), if_pos (by omega)]
  · rw [computeStreak, streakLoop, if_neg (by omega), if_pos (by omega)]

/-- Witness for C7, with today = 100, one older date 90 with a gap,
and a second scenario whose most recent date is 98. -/
theorem c7_streak_witness :
    computeStreak 100 (100 :: (100 - 1) :: (100 - 2) :: [90]) = 3 ∧
    computeStreak 100 ((100 - 2) :: [50]) = 0 :=
  c7_streak 100 [90] [50] (by decide)

/-- C9: calculate_cost is a pure flat per-million-token rate:
16.5 per million for the google-vertex provider tag, 15.0 per
million otherwise, and zero cost for zero tokens under every
provider tag. -/
theorem c9_calculate_cost :
    calculate_cost 1000000 "google-vertex" = 16.5 ∧
    calculate_cost 1000000 "anthropic" = 15.0 ∧
    ∀ p : String, calculate_cost 0 p = 0 := by
  refine ⟨by norm_num [calculate_cost], ?_, ?_⟩
  · have h : ¬ ("anthropic" : String) = "google-vertex" := by decide
    norm_num [calculate_cost, h]
  · intro p
    simp [calculate_cost]

/-- C8: two well-formed history-log lines with the same session id,
both within the time-range cutoff, fold to exactly one session
record with message_count 2 and the maximum of the two timestamps;
a malformed line anywhere at the head of the log is skipped without
failing the fold. -/
theorem c8_session_folding (now : ℤ) (tr : String) (e1 e2 : HistoryEntry)
    (lines : List (Option HistoryEntry))
    (hsid : e2.session_id = e1.session_id)
    (h1 : now - time_range_to_millis tr ≤ e1.timestamp)
    (h2 : now - time_range_to_millis tr ≤ e2.timestamp) :
    load_history_sessions now tr [some e1, some e2] =
      [(e1.session_id,
        { session_id := e1.session_id
          project := some (extract_project_name e1.project)
          project_path := some e1.project
          timestamp := max e1.timestamp e2.timestamp
          message_count := 2
          total_cost_usd := 0
          total_tokens := 0
          input_tokens := 0
          output_tokens := 0
          cache_read_tokens := 0
          cache_creation_tokens := 0
          active_time_seconds := 0
          tokens_by_model := [] })] ∧
    load_history_sessions now tr (none :: lines) =
      load_history_sessions now tr lines := by
  constructor
  · rw [load_history_sessions, foldHistory, if_neg (by omega),
      foldHistory, if_neg (by omega), foldHistory]
    simp [insertEntry, initialSession, hsid]
    rw [max_def]
    split_ifs <;> omega
  · rfl

/- helper lemmas for the enrichment frame properties -/

theorem forall2_liftRel_same (R : SessionMetrics → SessionMetrics → Prop)
    (h : ∀ s, R s s) (m : List (String × SessionMetrics)) :
    List.Forall₂ (liftRel R) m m :=
  List.forall₂_same.mpr (fun p _ => ⟨rfl, h p.2⟩)

theorem forall2_liftRel_trans (R : SessionMetrics → SessionMetrics → Prop)
    (ht : ∀ a b c, R a b → R b c → R a c) :
    ∀ {a b c : List (String × SessionMetrics)},
      List.Forall₂ (liftRel R) a b → List.Forall₂ (liftRel R) b c →
      List.Forall₂ (liftRel R) a c := by
  intro a b c hab
  induction hab generalizing c with
  | nil =>
    intro hbc
    cases hbc
    exact List.Forall₂.nil
  | cons hpq _ ih =>
    intro hbc
    cases hbc with
    | cons hqc hrest2 =>
      exact List.Forall₂.cons ⟨hpq.1.trans hqc.1, ht _ _ _ hpq.2 hqc.2⟩ (ih hrest2)

theorem forall2_liftRel_keys (R : SessionMetrics → SessionMetrics → Prop) :
    ∀ {a b : List (String × SessionMetrics)},
      List.Forall₂ (liftRel R) a b → b.map Prod.fst = a.map Prod.fst := by
  intro a b h
  induction h with
  | nil => rfl
  | cons hpq _ ih =>
    simp only [List.map_cons, ih]
    rw [hpq.1]

theorem updateSession_forall2 (R : SessionMetrics → SessionMetrics → Prop)
    (hrefl : ∀ s, R s s) (sid : String) (f : SessionMetrics → SessionMetrics)
    (hf : ∀ s, R s (f s)) (m : List (String × SessionMetrics)) :
    List.Forall₂ (liftRel R) m (updateSession m sid f) := by
  induction m with
  | nil => exact List.Forall₂.nil
  | cons p t ih =>
    simp only [updateSession, List.map_cons] at ih ⊢
    refine List.Forall₂.cons ?_ ih
    by_cases h : p.1 = sid
    · rw [if_pos h]
      exact ⟨rfl, hf p.2⟩
    · rw [if_neg h]
      exact ⟨rfl, hrefl p.2⟩

theorem foldPass_forall2 (R : SessionMetrics → SessionMetrics → Prop)
    (hrefl : ∀ s, R s s) (ht : ∀ a b c, R a b → R b c → R a c)
    (step : List (String × SessionMetrics) → QueryResult →
      List (String × SessionMetrics))
    (hstep : ∀ acc r, List.Forall₂ (liftRel R) acc (step acc r)) :
    ∀ (results : List QueryResult) (m : List (String × SessionMetrics)),
      List.Forall₂ (liftRel R) m (results.foldl step m) := by
  intro results
  induction results with
  | nil => intro m; exact forall2_liftRel_same R hrefl m
  | cons r t ih =>
    intro m
    exact forall2_liftRel_trans R ht (hstep m r) (ih (step m r))

theorem enrichFrame_refl (s : SessionMetrics) : enrichFrame s s := by
  simp [enrichFrame]

theorem onlyCostChanged_refl (s : SessionMetrics) : onlyCostChanged s s := by
  simp [onlyCostChanged]

theorem onlyTokensChanged_refl (s : SessionMetrics) : onlyTokensChanged s s := by
  simp [onlyTokensChanged]

theorem onlyTypeChanged_refl (s : SessionMetrics) : onlyTypeChanged s s := by
  simp [onlyTypeChanged]

theorem onlyTimeChanged_refl (s : SessionMetrics) : onlyTimeChanged s s := by
  simp [onlyTimeChanged]

theorem onlyCostChanged_trans (a b c : SessionMetrics)
    (hab : onlyCostChanged a b) (hbc : onlyCostChanged b c) :
    onlyCostChanged a c := by
  unfold onlyCostChanged at *
  simp_all

theorem onlyTokensChanged_trans (a b c : SessionMetrics)
    (hab : onlyTokensChanged a b) (hbc : onlyTokensChanged b c) :
    onlyTokensChanged a c := by
  unfold onlyTokensChanged at *
  simp_all

theorem onlyTypeChanged_trans (a b c : SessionMetrics)
    (hab : onlyTypeChanged a b) (hbc : onlyTypeChanged b c) :
    onlyTypeChanged a c := by
  unfold onlyTypeChanged at *
  simp_all

theorem onlyTimeChanged_trans (a b c : SessionMetrics)
    (hab : onlyTimeChanged a b) (hbc : onlyTimeChanged b c) :
    onlyTimeChanged a c := by
  unfold onlyTimeChanged at *
  simp_all

theorem enrichFrame_trans (a b c : SessionMetrics)
    (hab : enrichFrame a b) (hbc : enrichFrame b c) : enrichFrame a c := by
  unfold enrichFrame at *
  simp_all

theorem onlyCostChanged_enrichFrame (s t : SessionMetrics)
    (h : onlyCostChanged s t) : enrichFrame s t :=
  ⟨h.1, h.2.1, h.2.2.1, h.2.2.2.1, h.2.2.2.2.1, h.2.2.2.2.2.1⟩

theorem onlyTokensChanged_enrichFrame (s t : SessionMetrics)
    (h : onlyTokensChanged s t) : enrichFrame s t :=
  ⟨h.1, h.2.1, h.2.2.1, h.2.2.2.1, h.2.2.2.2.1, h.2.2.2.2.2.1⟩

theorem onlyTypeChanged_enrichFrame (s t : SessionMetrics)
    (h : onlyTypeChanged s t) : enrichFrame s t :=
  ⟨h.1, h.2.1, h.2.2.1, h.2.2.2.1, h.2.2.2.2.1, h.2.2.2.2.2.1⟩

theorem onlyTimeChanged_enrichFrame (s t : SessionMetrics)
    (h : onlyTimeChanged s t) : enrichFrame s t :=
  ⟨h.1, h.2.1, h.2.2.1, h.2.2.2.1, h.2.2.2.2.1, h.2.2.2.2.2.1⟩

theorem costPass_forall2 (rs : List QueryResult)
    (m : List (String × SessionMetrics)) :
    List.Forall₂ (liftRel onlyCostChanged) m (costPass rs m) := by
  refine foldPass_forall2 onlyCostChanged onlyCostChanged_refl
    onlyCostChanged_trans _ ?_ rs m
  intro acc r
  cases h : metricGet r.metric "session_id" with
  | none =>
    simp only [h]
    exact forall2_liftRel_same onlyCostChanged onlyCostChanged_refl acc
  | some sid =>
    simp only [h]
    refine updateSession_forall2 onlyCostChanged onlyCostChanged_refl sid _ ?_ acc
    intro s
    simp [onlyCostChanged]

theorem tokensPass_forall2 (rs : List QueryResult)
    (m : List (String × SessionMetrics)) :
    List.Forall₂ (liftRel onlyTokensChanged) m (tokensPass rs m) := by
  refine foldPass_forall2 onlyTokensChanged onlyTokensChanged_refl
    onlyTokensChanged_trans _ ?_ rs m
  intro acc r
  cases h : metricGet r.metric "session_id" with
  | none =>
    simp only [h]
    exact forall2_liftRel_same onlyTokensChanged onlyTokensChanged_refl acc
  | some sid =>
    simp only [h]
    refine updateSession_forall2 onlyTokensChanged onlyTokensChanged_refl sid _ ?_ acc
    intro s
    simp [onlyTokensChanged]

theorem typePass_forall2 (rs : List QueryResult)
    (m : List (String × SessionMetrics)) :
    List.Forall₂ (liftRel onlyTypeChanged) m (typePass rs m) := by
  refine foldPass_forall2 onlyTypeChanged onlyTypeChanged_refl
    onlyTypeChanged_trans _ ?_ rs m
  intro acc r
  cases h : metricGet r.metric "session_id" with
  | none =>
    simp only [h]
    exact forall2_liftRel_same onlyTypeChanged onlyTypeChanged_refl acc
  | some sid =>
    cases h2 : metricGet r.metric "type" with
    | none =>
      simp only [h, h2]
      exact forall2_liftRel_same onlyTypeChanged onlyTypeChanged_refl acc
    | some tt =>
      simp only [h, h2]
      refine updateSession_forall2 onlyTypeChanged onlyTypeChanged_refl sid _ ?_ acc
      intro s
      unfold onlyTypeChanged
      split_ifs <;> simp

theorem timePass_forall2 (rs : List QueryResult)
    (m : List (String × SessionMetrics)) :
    List.Forall₂ (liftRel onlyTimeChanged) m (timePass rs m) := by
  refine foldPass_forall2 onlyTimeChanged onlyTimeChanged_refl
    onlyTimeChanged_trans _ ?_ rs m
  intro acc r
  cases h : metricGet r.metric "session_id" with
  | none =>
    simp only [h]
    exact forall2_liftRel_same onlyTimeChanged onlyTimeChanged_refl acc
  | some sid =>
    simp only [h]
    refine updateSession_forall2 onlyTimeChanged onlyTimeChanged_refl sid _ ?_ acc
    intro s
    simp [onlyTimeChanged]

theorem passIf_forall2 (R : SessionMetrics → SessionMetrics → Prop)
    (hrefl : ∀ s, R s s) (x : Except PrometheusError (List QueryResult))
    (pass : List QueryResult → List (String × SessionMetrics) →
      List (String × SessionMetrics))
    (hpass : ∀ rs m, List.Forall₂ (liftRel R) m (pass rs m))
    (m : List (String × SessionMetrics)) :
    List.Forall₂ (liftRel R) m (passIf x pass m) := by
  cases x with
  | ok rs => exact hpass rs m
  | error e => exact forall2_liftRel_same R hrefl m

theorem enrich_nested_frame (x1 x2 x3 x4 : Except PrometheusError (List QueryResult))
    (m : List (String × SessionMetrics)) :
    List.Forall₂ (liftRel enrichFrame) m
      (passIf x4 timePass (passIf x3 typePass
        (passIf x2 tokensPass (passIf x1 costPass m)))) := by
  have w1 : ∀ rs mm, List.Forall₂ (liftRel enrichFrame) mm (costPass rs mm) :=
    fun rs mm => (costPass_forall2 rs mm).imp
      (fun _ _ hab => ⟨hab.1, onlyCostChanged_enrichFrame _ _ hab.2⟩)
  have w2 : ∀ rs mm, List.Forall₂ (liftRel enrichFrame) mm (tokensPass rs mm) :=
    fun rs mm => (tokensPass_forall2 rs mm).imp
      (fun _ _ hab => ⟨hab.1, onlyTokensChanged_enrichFrame _ _ hab.2⟩)
  have w3 : ∀ rs mm, List.Forall₂ (liftRel enrichFrame) mm (typePass rs mm) :=
    fun rs mm => (typePass_forall2 rs mm).imp
      (fun _ _ hab => ⟨hab.1, onlyTypeChanged_enrichFrame _ _ hab.2⟩)
  have w4 : ∀ rs mm, List.Forall₂ (liftRel enrichFrame) mm (timePass rs mm) :=
    fun rs mm => (timePass_forall2 rs mm).imp
      (fun _ _ hab => ⟨hab.1, onlyTimeChanged_enrichFrame _ _ hab.2⟩)
  exact forall2_liftRel_trans enrichFrame enrichFrame_trans
    (forall2_liftRel_trans enrichFrame enrichFrame_trans
      (forall2_liftRel_trans enrichFrame enrichFrame_trans
        (passIf_forall2 enrichFrame enrichFrame_refl x1 costPass w1 m)
        (passIf_forall2 enrichFrame enrichFrame_refl x2 tokensPass w2 _))
      (passIf_forall2 enrichFrame enrichFrame_refl x3 typePass w3 _))
    (passIf_forall2 enrichFrame enrichFrame_refl x4 timePass w4 _)

/- helper lemmas for the health defaults -/

theorem scalarMissing_default (env : PromEnv) (q : String)
    (h : scalarMissing env q) : scalarOrDefault env q 0 = 0 := by
  unfold scalarMissing at h
  unfold scalarOrDefault
  split at h
  · rfl
  · split at h
    · rfl
    · split at h
      · rfl
      · simp [h]

theorem rangeSeriesMissing_default (env : PromEnv) (q : String)
    (start_time end_time : ℤ) (step : String)
    (h : rangeSeriesMissing env q start_time end_time step) :
    rangeSeriesOrDefault env q start_time end_time step [] = [] := by
  unfold rangeSeriesMissing at h
  unfold rangeSeriesOrDefault
  split at h
  · rfl
  · split at h
    · rfl
    · simp [h]

/-- C4: fetch_prometheus_health always returns Ok, and every field
whose query failed, returned no sample, or returned an unparsable
sample holds its zero/default value (false, empty string, zero or
empty series). -/
theorem c4_health_defaults (env : PromEnv) (start_time end_time : ℤ) :
    ∃ hm, fetch_prometheus_health env start_time end_time = .ok hm ∧
      ((env.testConn).isOk = false → hm.is_ready = false) ∧
      ((env.query "prometheus_build_info").isOk = false →
        hm.version = "" ∧ hm.go_version = "") ∧
      (scalarMissing env "time() - process_start_time_seconds" →
        hm.uptime_seconds = 0) ∧
      (scalarMissing env "prometheus_tsdb_storage_blocks_bytes" →
        hm.storage_blocks_bytes = 0) ∧
      (scalarMissing env "prometheus_tsdb_wal_storage_size_bytes" →
        hm.storage_wal_bytes = 0) ∧
      (scalarMissing env "prometheus_tsdb_storage_blocks_bytes" →
        scalarMissing env "prometheus_tsdb_wal_storage_size_bytes" →
        hm.storage_total_bytes = 0) ∧
      (scalarMissing env "prometheus_tsdb_retention_limit_bytes" →
        hm.storage_retention_limit_bytes = 0) ∧
      (scalarMissing env "prometheus_tsdb_retention_limit_seconds" →
        hm.storage_retention_limit_seconds = 0) ∧
      (scalarMissing env "prometheus_tsdb_head_series" → hm.head_series = 0) ∧
      (scalarMissing env "prometheus_tsdb_lowest_timestamp_seconds" →
        hm.oldest_timestamp_seconds = 0) ∧
      (scalarMissing env "prometheus_tsdb_head_max_time_seconds" →
        hm.newest_timestamp_seconds = 0) ∧
      (scalarMissing env "prometheus_tsdb_blocks_loaded" →
        hm.blocks_loaded = 0) ∧
      (scalarMissing env "process_resident_memory_bytes" →
        hm.process_memory_bytes = 0) ∧
      (scalarMissing env "go_memstats_heap_inuse_bytes" →
        hm.heap_inuse_bytes = 0) ∧
      (scalarMissing env "go_memstats_heap_alloc_bytes" →
        hm.heap_alloc_bytes = 0) ∧
      (scalarMissing env "go_goroutines" → hm.goroutines = 0) ∧
      (scalarMissing env "rate(process_cpu_seconds_total[1m])" →
        hm.cpu_seconds_rate = 0) ∧
      (scalarMissing env "rate(prometheus_tsdb_head_samples_appended_total[1m])" →
        hm.samples_appended_rate = 0) ∧
      (scalarMissing env "rate(prometheus_tsdb_head_series_created_total[1m])" →
        hm.series_created_rate = 0) ∧
      (scalarMissing env "count(up)" → hm.target_count = 0) ∧
      (scalarMissing env "scrape_duration_seconds" →
        hm.scrape_duration_seconds = 0) ∧
      (scalarMissing env "scrape_samples_scraped" → hm.scrape_samples = 0) ∧
      (scalarMissing env "prometheus_tsdb_compactions_failed_total" →
        hm.compactions_failed = 0) ∧
      (scalarMissing env "prometheus_tsdb_compactions_total" →
        hm.compactions_total = 0) ∧
      (scalarMissing env "prometheus_tsdb_wal_corruptions_total" →
        hm.wal_corruptions = 0) ∧
      ((env.query "prometheus_config_last_reload_successful").isOk = false →
        hm.config_reload_success = false) ∧
      (scalarMissing env "prometheus_config_last_reload_success_timestamp_seconds" →
        hm.config_reload_timestamp = 0) ∧
      (rangeSeriesMissing env
          "prometheus_tsdb_storage_blocks_bytes + prometheus_tsdb_wal_storage_size_bytes"
          start_time end_time (healthStep (end_time - start_time)) →
        hm.storage_over_time = []) ∧
      (rangeSeriesMissing env "process_resident_memory_bytes"
          start_time end_time (healthStep (end_time - start_time)) →
        hm.memory_over_time = []) ∧
      (rangeSeriesMissing env "rate(prometheus_tsdb_head_samples_appended_total[1m])"
          start_time end_time (healthStep (end_time - start_time)) →
        hm.samples_rate_over_time = []) := by
  refine ⟨_, rfl, ?_, ?_, ?_, ?_, ?_, ?_, ?_, ?_, ?_, ?_, ?_, ?_, ?_, ?_, ?_,
    ?_, ?_, ?_, ?_, ?_, ?_, ?_, ?_, ?_, ?_, ?_, ?_, ?_, ?_, ?_⟩
  · intro h
    cases ht : env.testConn with
    | ok b => rw [ht] at h; simp [Except.isOk, Except.toBool] at h
    | error e => simp [ht]
  · intro h
    cases hq : env.query "prometheus_build_info" with
    | ok results => rw [hq] at h; simp [Except.isOk, Except.toBool] at h
    | error e => constructor <;> simp [hq]
  · exact fun h => scalarMissing_default env _ h
  · exact fun h => scalarMissing_default env _ h
  · exact fun h => scalarMissing_default env _ h
  · intro h1 h2
    show scalarOrDefault env "prometheus_tsdb_storage_blocks_bytes" 0 +
      scalarOrDefault env "prometheus_tsdb_wal_storage_size_bytes" 0 = 0
    rw [scalarMissing_default env _ h1, scalarMissing_default env _ h2]
    norm_num
  · exact fun h => scalarMissing_default env _ h
  · exact fun h => scalarMissing_default env _ h
  · exact fun h => scalarMissing_default env _ h
  · exact fun h => scalarMissing_default env _ h
  · exact fun h => scalarMissing_default env _ h
  · exact fun h => scalarMissing_default env _ h
  · exact fun h => scalarMissing_default env _ h
  · exact fun h => scalarMissing_default env _ h
  · exact fun h => scalarMissing_default env _ h
  · exact fun h => scalarMissing_default env _ h
  · exact fun h => scalarMissing_default env _ h
  · exact fun h => scalarMissing_default env _ h
  · exact fun h => scalarMissing_default env _ h
  · exact fun h => scalarMissing_default env _ h
  · exact fun h => scalarMissing_default env _ h
  · exact fun h => scalarMissing_default env _ h
  · exact fun h => scalarMissing_default env _ h
  · exact fun h => scalarMissing_default env _ h
  · exact fun h => scalarMissing_default env _ h
  · intro h
    cases hq : env.query "prometheus_config_last_reload_successful" with
    | ok results => rw [hq] at h; simp [Except.isOk, Except.toBool] at h
    | error e => simp [hq]
  · exact fun h => scalarMissing_default env _ h
  · exact fun h => rangeSeriesMissing_default env _ _ _ _ h
  · exact fun h => rangeSeriesMissing_default env _ _ _ _ h
  · exact fun h => rangeSeriesMissing_default env _ _ _ _ h

/-- Witness for C4: against an environment in which the connection
probe and every query fail, the health fetch still returns Ok and
every field holds its default. -/
theorem c4_health_defaults_witness :
    ∃ hm, fetch_prometheus_health allFailEnv 0 3600 = .ok hm ∧
      hm.is_ready = false ∧ hm.version = "" ∧ hm.go_version = "" ∧
      hm.uptime_seconds = 0 ∧ hm.storage_blocks_bytes = 0 ∧
      hm.storage_wal_bytes = 0 ∧ hm.storage_total_bytes = 0 ∧
      hm.storage_retention_limit_bytes = 0 ∧
      hm.storage_retention_limit_seconds = 0 ∧ hm.head_series = 0 ∧
      hm.oldest_timestamp_seconds = 0 ∧ hm.newest_timestamp_seconds = 0 ∧
      hm.blocks_loaded = 0 ∧ hm.process_memory_bytes = 0 ∧
      hm.heap_inuse_bytes = 0 ∧ hm.heap_alloc_bytes = 0 ∧
      hm.goroutines = 0 ∧ hm.cpu_seconds_rate = 0 ∧
      hm.samples_appended_rate = 0 ∧ hm.series_created_rate = 0 ∧
      hm.target_count = 0 ∧ hm.scrape_duration_seconds = 0 ∧
      hm.scrape_samples = 0 ∧ hm.compactions_failed = 0 ∧
      hm.compactions_total = 0 ∧ hm.wal_corruptions = 0 ∧
      hm.config_reload_success = false ∧ hm.config_reload_timestamp = 0 ∧
      hm.storage_over_time = [] ∧ hm.memory_over_time = [] ∧
      hm.samples_rate_over_time = [] := by
  obtain ⟨hm, heq, h1, h2, h3, h4, h5, h6, h7, h8, h9, h10, h11, h12, h13,
    h14, h15, h16, h17, h18, h19, h20, h21, h22, h23, h24, h25, h26, h27,
    h28, h29, h30⟩ := c4_health_defaults allFailEnv 0 3600
  exact ⟨hm, heq, h1 rfl, (h2 rfl).1, (h2 rfl).2, h3 trivial, h4 trivial,
    h5 trivial, h6 trivial trivial, h7 trivial, h8 trivial, h9 trivial,
    h10 trivial, h11 trivial, h12 trivial, h13 trivial, h14 trivial,
    h15 trivial, h16 trivial, h17 trivial, h18 trivial, h19 trivial,
    h20 trivial, h21 trivial, h22 trivial, h23 trivial, h24 trivial,
    h25 trivial, h26 rfl, h27 trivial, h28 trivial, h29 trivial, h30 trivial⟩

/-- C10: enrichment neither inserts nor removes session records
(the key list is unchanged) and preserves session_id, project,
project_path, message_count, timestamp and tokens_by_model of every
record, rewriting only the cost, token-count and active-time
fields; moreover each query pass touches only its own field set. -/
theorem c10_enrich_frame (env : PromEnv) (tr : String)
    (m : List (String × SessionMetrics)) :
    (enrich_with_prometheus env tr m).map Prod.fst = m.map Prod.fst ∧
    List.Forall₂ (liftRel enrichFrame) m (enrich_with_prometheus env tr m) ∧
    (∀ (rs : List QueryResult) (m0 : List (String × SessionMetrics)),
      List.Forall₂ (liftRel onlyCostChanged) m0 (costPass rs m0)) ∧
    (∀ (rs : List QueryResult) (m0 : List (String × SessionMetrics)),
      List.Forall₂ (liftRel onlyTokensChanged) m0 (tokensPass rs m0)) ∧
    (∀ (rs : List QueryResult) (m0 : List (String × SessionMetrics)),
      List.Forall₂ (liftRel onlyTypeChanged) m0 (typePass rs m0)) ∧
    (∀ (rs : List QueryResult) (m0 : List (String × SessionMetrics)),
      List.Forall₂ (liftRel onlyTimeChanged) m0 (timePass rs m0)) := by
  have hmain : List.Forall₂ (liftRel enrichFrame) m
      (enrich_with_prometheus env tr m) := by
    unfold enrich_with_prometheus
    exact enrich_nested_frame _ _ _ _ m
  exact ⟨forall2_liftRel_keys enrichFrame hmain, hmain,
    costPass_forall2, tokensPass_forall2, typePass_forall2, timePass_forall2⟩

/-- Witness for C8, two concrete log lines for session s1 within a
1-hour range, with a malformed line in the second scenario. -/
theorem c8_session_folding_witness :
    load_history_sessions 10000000000 "1h"
        [some ⟨9999999000, "/home/u/projA", "s1"⟩,
         some ⟨9999999500, "/home/u/projA", "s1"⟩] =
      [("s1",
        { session_id := "s1"
          project := some (extract_project_name "/home/u/projA")
          project_path := some "/home/u/projA"
          timestamp := max 9999999000 9999999500
          message_count := 2
          total_cost_usd := 0
          total_tokens := 0
          input_tokens := 0
          output_tokens := 0
          cache_read_tokens := 0
          cache_creation_tokens := 0
          active_time_seconds := 0
          tokens_by_model := [] })] ∧
    load_history_sessions 10000000000 "1h"
        (none :: [some ⟨9999999000, "/home/u/projA", "s1"⟩]) =
      load_history_sessions 10000000000 "1h"
        [some ⟨9999999000, "/home/u/projA", "s1"⟩] :=
  c8_session_folding 10000000000 "1h"
    ⟨9999999000, "/home/u/projA", "s1"⟩ ⟨9999999500, "/home/u/projA", "s1"⟩
    [some ⟨9999999000, "/home/u/projA", "s1"⟩] rfl (by decide) (by decide)

/-- C5: once the time range resolves, the dashboard aggregator
fails with the display string of the first failing client call (in
issue order) and returns no summary; a summary is returned only
when every one of the fourteen client calls succeeds. -/
theorem c5_dashboard_fail_fast (env : PromEnv) (now : ℤ) (tr : String)
    (cs ce : Option ℤ) (st en : ℤ) (range : String)
    (hres : resolveDashboardRange now tr cs ce = .ok (st, en, range)) :
    (∀ e, firstError (dashboardCallResults env range
        (stepRateWindow tr st en).1 (stepRateWindow tr st en).2 st en) = some e →
      getDashboardMetrics env now tr cs ce = .error e.display) ∧
    (∀ dm, getDashboardMetrics env now tr cs ce = .ok dm →
      firstError (dashboardCallResults env range
        (stepRateWindow tr st en).1 (stepRateWindow tr st en).2 st en) = none) := by
  simp only [getDashboardMetrics, hres]
  cases h1 : env.query (tokensQuery range) with
  | error e1 =>
    constructor
    · intro e he
      simp only [dashboardCallResults, dashboardInstantQueries, firstError,
        List.map_cons, List.map_nil, List.cons_append, List.nil_append,
        List.findSome?_cons, List.findSome?_nil, Except.map,
        Option.some.injEq, h1] at he
      subst he
      simp [queryScalar, h1]
    · intro dm hdm
      simp [queryScalar, h1] at hdm
  | ok v1 =>
  cases h2 : env.query (inputQuery range) with
  | error e2 =>
    constructor
    · intro e he
      simp only [dashboardCallResults, dashboardInstantQueries, firstError,
        List.map_cons, List.map_nil, List.cons_append, List.nil_append,
        List.findSome?_cons, List.findSome?_nil, Except.map,
        Option.some.injEq, h1, h2] at he
      subst he
      simp [queryScalar, h1, h2]
    · intro dm hdm
      simp [queryScalar, h1, h2] at hdm
  | ok v2 =>
  cases h3 : env.query (outputQuery range) with
  | error e3 =>
    constructor
    · intro e he
      simp only [dashboardCallResults, dashboardInstantQueries, firstError,
        List.map_cons, List.map_nil, List.cons_append, List.nil_append,
        List.findSome?_cons, List.findSome?_nil, Except.map,
        Option.some.injEq, h1, h2, h3] at he
      subst he
      simp [queryScalar, h1, h2, h3]
    · intro dm hdm
      simp [queryScalar, h1, h2, h3] at hdm
  | ok v3 =>
  cases h4 : env.query (cacheReadQuery range) with
  | error e4 =>
    constructor
    · intro e he
      simp only [dashboardCallResults, dashboardInstantQueries, firstError,
        List.map_cons, List.map_nil, List.cons_append, List.nil_append,
        List.findSome?_cons, List.findSome?_nil, Except.map,
        Option.some.injEq, h1, h2, h3, h4] at he
      subst he
      simp [queryScalar, h1, h2, h3, h4]
    · intro dm hdm
      simp [queryScalar, h1, h2, h3, h4] at hdm
  | ok v4 =>
  cases h5 : env.query (cacheCreationQuery range) with
  | error e5 =>
    constructor
    · intro e he
      simp only [dashboardCallResults, dashboardInstantQueries, firstError,
        List.map_cons, List.map_nil, List.cons_append, List.nil_append,
        List.findSome?_cons, List.findSome?_nil, Except.map,
        Option.some.injEq, h1, h2, h3, h4, h5] at he
      subst he
      simp [queryScalar, h1, h2, h3, h4, h5]
    · intro dm hdm
      simp [queryScalar, h1, h2, h3, h4, h5] at hdm
  | ok v5 =>
  cases h6 : env.query (costQuery range) with
  | error e6 =>
    constructor
    · intro e he
      simp only [dashboardCallResults, dashboardInstantQueries, firstError,
        List.map_cons, List.map_nil, List.cons_append, List.nil_append,
        List.findSome?_cons, List.findSome?_nil, Except.map,
        Option.some.injEq, h1, h2, h3, h4, h5, h6] at he
      subst he
      simp [queryScalar, h1, h2, h3, h4, h5, h6]
    · intro dm hdm
      simp [queryScalar, h1, h2, h3, h4, h5, h6] at hdm
  | ok v6 =>
  cases h7 : env.query (activeTimeQuery range) with
  | error e7 =>
    constructor
    · intro e he
      simp only [dashboardCallResults, dashboardInstantQueries, firstError,
        List.map_cons, List.map_nil, List.cons_append, List.nil_append,
        List.findSome?_cons, List.findSome?_nil, Except.map,
        Option.some.injEq, h1, h2, h3, h4, h5, h6, h7] at he
      subst he
      simp [queryScalar, h1, h2, h3, h4, h5, h6, h7]
    · intro dm hdm
      simp [queryScalar, h1, h2, h3, h4, h5, h6, h7] at hdm
  | ok v7 =>
  cases h8 : env.query (sessionQuery range) with
  | error e8 =>
    constructor
    · intro e he
      simp only [dashboardCallResults, dashboardInstantQueries, firstError,
        List.map_cons, List.map_nil, List.cons_append, List.nil_append,
        List.findSome?_cons, List.findSome?_nil, Except.map,
        Option.some.injEq, h1, h2, h3, h4, h5, h6, h7, h8] at he
      subst he
      simp [queryScalar, h1, h2, h3, h4, h5, h6, h7, h8]
    · intro dm hdm
      simp [queryScalar, h1, h2, h3, h4, h5, h6, h7, h8] at hdm
  | ok v8 =>
  cases h9 : env.query (linesAddedQuery range) with
  | error e9 =>
    constructor
    · intro e he
      simp only [dashboardCallResults, dashboardInstantQueries, firstError,
        List.map_cons, List.map_nil, List.cons_append, List.nil_append,
        List.findSome?_cons, List.findSome?_nil, Except.map,
        Option.some.injEq, h1, h2, h3, h4, h5, h6, h7, h8, h9] at he
      subst he
      simp [queryScalar, h1, h2, h3, h4, h5, h6, h7, h8, h9]
    · intro dm hdm
      simp [queryScalar, h1, h2, h3, h4, h5, h6, h7, h8, h9] at hdm
  | ok v9 =>
  cases h10 : env.query (linesRemovedQuery range) with
  | error e10 =>
    constructor
    · intro e he
      simp only [dashboardCallResults, dashboardInstantQueries, firstError,
        List.map_cons, List.map_nil, List.cons_append, List.nil_append,
        List.findSome?_cons, List.findSome?_nil, Except.map,
        Option.some.injEq, h1, h2, h3, h4, h5, h6, h7, h8, h9, h10] at he
      subst he
      simp [queryScalar, h1, h2, h3, h4, h5, h6, h7, h8, h9, h10]
    · intro dm hdm
      simp [queryScalar, h1, h2, h3, h4, h5, h6, h7, h8, h9, h10] at hdm
  | ok v10 =>
  cases h11 : env.query (commitQuery range) with
  | error e11 =>
    constructor
    · intro e he
      simp only [dashboardCallResults, dashboardInstantQueries, firstError,
        List.map_cons, List.map_nil, List.cons_append, List.nil_append,
        List.findSome?_cons, List.findSome?_nil, Except.map,
        Option.some.injEq, h1, h2, h3, h4, h5, h6, h7, h8, h9, h10, h11] at he
      subst he
      simp [queryScalar, h1, h2, h3, h4, h5, h6, h7, h8, h9, h10, h11]
    · intro dm hdm
      simp [queryScalar, h1, h2, h3, h4, h5, h6, h7, h8, h9, h10, h11] at hdm
  | ok v11 =>
  cases h12 : env.query (prQuery range) with
  | error e12 =>
    constructor
    · intro e he
      simp only [dashboardCallResults, dashboardInstantQueries, firstError,
        List.map_cons, List.map_nil, List.cons_append, List.nil_append,
        List.findSome?_cons, List.findSome?_nil, Except.map,
        Option.some.injEq, h1, h2, h3, h4, h5, h6, h7, h8, h9, h10, h11, h12] at he
      subst he
      simp [queryScalar, h1, h2, h3, h4, h5, h6, h7, h8, h9, h10, h11, h12]
    · intro dm hdm
      simp [queryScalar, h1, h2, h3, h4, h5, h6, h7, h8, h9, h10, h11, h12] at hdm
  | ok v12 =>
  cases h13 : env.query (modelQuery range) with
  | error e13 =>
    constructor
    · intro e he
      simp only [dashboardCallResults, dashboardInstantQueries, firstError,
        List.map_cons, List.map_nil, List.cons_append, List.nil_append,
        List.findSome?_cons, List.findSome?_nil, Except.map,
        Option.some.injEq, h1, h2, h3, h4, h5, h6, h7, h8, h9, h10, h11, h12, h13] at he
      subst he
      simp [queryScalar, h1, h2, h3, h4, h5, h6, h7, h8, h9, h10, h11, h12, h13]
    · intro dm hdm
      simp [queryScalar, h1, h2, h3, h4, h5, h6, h7, h8, h9, h10, h11, h12, h13] at hdm
  | ok v13 =>
  cases h14 : env.queryRange (rateRangeQuery (stepRateWindow tr st en).2) st en (stepRateWindow tr st en).1 with
  | error e14 =>
    constructor
    · intro e he
      simp only [dashboardCallResults, dashboardInstantQueries, firstError,
        List.map_cons, List.map_nil, List.cons_append, List.nil_append,
        List.findSome?_cons, List.findSome?_nil, Except.map,
        Option.some.injEq, h1, h2, h3, h4, h5, h6, h7, h8, h9, h10, h11, h12, h13, h14] at he
      subst he
      simp [queryScalar, h1, h2, h3, h4, h5, h6, h7, h8, h9, h10, h11, h12, h13, h14]
    · intro dm hdm
      simp [queryScalar, h1, h2, h3, h4, h5, h6, h7, h8, h9, h10, h11, h12, h13, h14] at hdm
  | ok v14 =>
    constructor
    · intro e he
      simp only [dashboardCallResults, dashboardInstantQueries, firstError,
        List.map_cons, List.map_nil, List.cons_append, List.nil_append,
        List.findSome?_cons, List.findSome?_nil, Except.map,
        h1, h2, h3, h4, h5, h6, h7, h8, h9, h10, h11, h12, h13, h14] at he
      exact Option.noConfusion he
    · intro dm hdm
      simp only [dashboardCallResults, dashboardInstantQueries, firstError,
        List.map_cons, List.map_nil, List.cons_append, List.nil_append,
        List.findSome?_cons, List.findSome?_nil, Except.map,
        h1, h2, h3, h4, h5, h6, h7, h8, h9, h10, h11, h12, h13, h14]


/-- Witness for C5: against an environment in which exactly the
output-tokens query fails with an invalid-response error, the
dashboard call returns that display string. -/
theorem c5_dashboard_fail_fast_witness :
    getDashboardMetrics oneFailEnv 1000 "15m" none none =
      .error "Invalid response: bad" :=
  (c5_dashboard_fail_fast oneFailEnv 1000 "15m" none none 100 1000 "15m"
    (by simp [resolveDashboardRange, time_range_to_seconds, time_range_to_promql])).1
    (PrometheusError.invalidResponse "bad") (by decide)

end CCMonitor
